import Mathlib

/-!
Shallow embedding of `src/composed/key/builder.rs` (rPGP's declarative
key-generation builder): the parameter builders with their validation,
the `KeyType` dispatch, and the composite key factory
`SecretKeyParams::generate_with_rng`.  External collaborators that live
outside the studied file (the randomness source, the per-family
key-generation providers, the passphrase-protection provider, and the
packet/aggregate constructors) are modelled from the specification and,
where their behaviour matters, kept abstract through the `Env` record.
-/

namespace Rpgp

/-- Modelled from the spec: the cryptographically secure randomness source
of §6, supporting deterministic seeding.  A source is a deterministic
stream identified by a seed together with a position in the stream. -/
structure Rng where
  seed : Nat
  pos : Nat
deriving DecidableEq, Repr

/-- Drawing one value from the source: the value is a fixed function of the
seed and the position, and the position advances. -/
def Rng.next (r : Rng) : Nat × Rng :=
  (r.seed * 1000003 + r.pos, ⟨r.seed, r.pos + 1⟩)

/-- Modelled from the spec: the named elliptic curves of
`crate::crypto::ecc_curve::ECCCurve` (the file is outside the studied
source).  The set covers the curves named by the spec's validation rule,
the Curve25519 family used by the tests, and the Brainpool curves as
representatives of curves outside the ECDSA legality set. -/
inductive ECCCurve
  | Curve25519
  | Ed448
  | P256
  | P384
  | P521
  | Secp256k1
  | BrainpoolP256r1
  | BrainpoolP384r1
  | BrainpoolP512r1
deriving DecidableEq, Repr

/-- Modelled from the spec: the display name of a curve, used only inside
the validation error message. -/
def ECCCurve.name : ECCCurve → String
  | .Curve25519 => "Curve25519"
  | .Ed448 => "Ed448"
  | .P256 => "NIST P-256"
  | .P384 => "NIST P-384"
  | .P521 => "NIST P-521"
  | .Secp256k1 => "secp256k1"
  | .BrainpoolP256r1 => "brainpoolP256r1"
  | .BrainpoolP384r1 => "brainpoolP384r1"
  | .BrainpoolP512r1 => "brainpoolP512r1"

/-- DSA parameter size constants, from the source (`DsaKeySize`). -/
inductive DsaKeySize
  | B1024
  | B2048
  | B3072
deriving DecidableEq, Repr

/-- The algorithm selector, from the source (`KeyType`): a closed tagged
union of the five families with their family-specific parameter. -/
inductive KeyType
  | Rsa (bit_size : Nat)
  | ECDH (curve : ECCCurve)
  | EdDSALegacy
  | ECDSA (curve : ECCCurve)
  | Dsa (key_size : DsaKeySize)
deriving DecidableEq, Repr

/-- Modelled from the spec: the algorithm identifier enumeration
(`crate::crypto::public_key::PublicKeyAlgorithm`), restricted to the
variants the studied file maps to. -/
inductive PublicKeyAlgorithm
  | RSA
  | ECDH
  | EdDSALegacy
  | ECDSA
  | DSA
deriving DecidableEq, Repr

/-- Pure mapping from a key type to its algorithm tag, from the source
(`KeyType::to_alg`). -/
def KeyType.to_alg : KeyType → PublicKeyAlgorithm
  | .Rsa _ => .RSA
  | .ECDH _ => .ECDH
  | .EdDSALegacy => .EdDSALegacy
  | .ECDSA _ => .ECDSA
  | .Dsa _ => .DSA

/-- Modelled from the spec: opaque enumerated algorithm tags for the three
preference lists (the enums live outside the studied source; only their
identity matters here). -/
abbrev SymmetricKeyAlgorithm := Nat

/-- Modelled from the spec: hash algorithm tag. -/
abbrev HashAlgorithm := Nat

/-- Modelled from the spec: compression algorithm tag. -/
abbrev CompressionAlgorithm := Nat

/-- Modelled from the spec: opaque revocation-key reference. -/
abbrev RevocationKey := Nat

/-- Modelled from the spec: opaque user-attribute record, carried
unchanged. -/
abbrev UserAttribute := Nat

/-- Modelled from the spec: opaque packet format tag (`types::Version`),
with a library-defined default. -/
abbrev Version := Nat

/-- Default format tag (`types::Version::default()`). -/
def Version.default : Version := 0

/-- Modelled from the spec: key version tag (`types::KeyVersion`), with a
library-defined default. -/
abbrev KeyVersion := Nat

/-- Default key version (`types::KeyVersion::default()`). -/
def KeyVersion.default : KeyVersion := 4

/-- Modelled from the spec: a UTC timestamp split into whole seconds and a
sub-second nanosecond component (`chrono::DateTime<Utc>`). -/
structure Timestamp where
  secs : Nat
  subsec_nanos : Nat
deriving DecidableEq, Repr

/-- Truncation to whole seconds (`chrono::SubsecRound::trunc_subsecs(0)`):
the sub-second component is dropped. -/
def Timestamp.trunc_subsecs0 (t : Timestamp) : Timestamp :=
  ⟨t.secs, 0⟩

/-- Modelled from the spec: a duration split into whole seconds and a
nanosecond remainder (`std::time::Duration`). -/
structure Duration where
  secs : Nat
  nanos : Nat
deriving DecidableEq, Repr

/-- Whole-second count of a duration (`Duration::as_secs`). -/
def Duration.as_secs (d : Duration) : Nat := d.secs

/-- Modelled from the spec: the key-derivation configuration
(`types::S2kParams`); its default construction draws a fresh salt from the
active randomness source. -/
structure S2kParams where
  salt : Nat
deriving DecidableEq, Repr

/-- Default derivation configuration (`S2kParams::new_default`): a fresh
random salt drawn from the given source. -/
def S2kParams.new_default (rng : Rng) : S2kParams × Rng :=
  let (x, rng) := rng.next
  (⟨x⟩, rng)

/-- Modelled from the spec: a user identity record
(`packet::UserId`), a format tag together with the identity string. -/
structure UserId where
  packet_version : Version
  id : String
deriving DecidableEq, Repr

/-- Construction of an identity record from a string
(`UserId::from_str`). -/
def UserId.from_str (v : Version) (s : String) : UserId :=
  ⟨v, s⟩

/-- Parameters of a subkey, from the source (`SubkeyParams`). -/
structure SubkeyParams where
  key_type : KeyType
  can_sign : Bool
  can_certify : Bool
  can_encrypt : Bool
  can_authenticate : Bool
  user_ids : List UserId
  user_attributes : List UserAttribute
  passphrase : Option String
  s2k : Option S2kParams
  created_at : Timestamp
  packet_version : Version
  version : KeyVersion
  expiration : Option Duration
deriving DecidableEq, Repr

/-- Parameters of a primary key, from the source (`SecretKeyParams`). -/
structure SecretKeyParams where
  key_type : KeyType
  can_sign : Bool
  can_certify : Bool
  can_encrypt : Bool
  preferred_symmetric_algorithms : List SymmetricKeyAlgorithm
  preferred_hash_algorithms : List HashAlgorithm
  preferred_compression_algorithms : List CompressionAlgorithm
  revocation_key : Option RevocationKey
  primary_user_id : String
  user_ids : List String
  user_attributes : List UserAttribute
  passphrase : Option String
  s2k : Option S2kParams
  created_at : Timestamp
  packet_version : Version
  version : KeyVersion
  expiration : Option Duration
  subkeys : List SubkeyParams
deriving DecidableEq, Repr

/-- Builder state for `SecretKeyParams`, as generated by
`derive_builder`: every field of the target is wrapped in `Option`,
`none` meaning "never set". -/
structure SecretKeyParamsBuilder where
  key_type : Option KeyType := none
  can_sign : Option Bool := none
  can_certify : Option Bool := none
  can_encrypt : Option Bool := none
  preferred_symmetric_algorithms : Option (List SymmetricKeyAlgorithm) := none
  preferred_hash_algorithms : Option (List HashAlgorithm) := none
  preferred_compression_algorithms : Option (List CompressionAlgorithm) := none
  revocation_key : Option (Option RevocationKey) := none
  primary_user_id : Option String := none
  user_ids : Option (List String) := none
  user_attributes : Option (List UserAttribute) := none
  passphrase : Option (Option String) := none
  s2k : Option (Option S2kParams) := none
  created_at : Option Timestamp := none
  packet_version : Option Version := none
  version : Option KeyVersion := none
  expiration : Option (Option Duration) := none
  subkeys : Option (List SubkeyParams) := none
deriving DecidableEq, Repr

/-- Builder state for `SubkeyParams`, as generated by `derive_builder`. -/
structure SubkeyParamsBuilder where
  key_type : Option KeyType := none
  can_sign : Option Bool := none
  can_certify : Option Bool := none
  can_encrypt : Option Bool := none
  can_authenticate : Option Bool := none
  user_ids : Option (List UserId) := none
  user_attributes : Option (List UserAttribute) := none
  passphrase : Option (Option String) := none
  s2k : Option (Option S2kParams) := none
  created_at : Option Timestamp := none
  packet_version : Option Version := none
  version : Option KeyVersion := none
  expiration : Option (Option Duration) := none
deriving DecidableEq, Repr

/-- Errors of a `derive_builder`-generated `build` call: a required field
that was never set, or a rejection by the custom validator. -/
inductive BuilderError
  | uninitializedField (field : String)
  | validationError (msg : String)
deriving DecidableEq, Repr

/-- The custom validator, from the source
(`SecretKeyParamsBuilder::validate`): algorithm-capability legality
checked over the builder state before the record is assembled. -/
def SecretKeyParamsBuilder.validate (st : SecretKeyParamsBuilder) : Except String Unit :=
  match st.key_type with
  | some (.Rsa size) =>
      if size < 2048 then
        .error "Keys with less than 2048bits are considered insecure"
      else
        .ok ()
  | some .EdDSALegacy =>
      if st.can_encrypt = some true then
        .error "EdDSA can only be used for signing keys"
      else
        .ok ()
  | some (.ECDSA curve) =>
      if st.can_encrypt = some true then
        .error "ECDSA can only be used for signing keys"
      else
        match curve with
        | .P256 | .P384 | .P521 | .Secp256k1 => .ok ()
        | _ => .error ("Curve " ++ curve.name ++ " is not supported for ECDSA")
  | some (.ECDH _) =>
      if st.can_sign = some true then
        .error "ECDH can only be used for encryption keys"
      else
        .ok ()
  | some (.Dsa _) =>
      if st.can_encrypt = some true then
        .error "DSA can only be used for signing keys"
      else
        .ok ()
  | _ => .ok ()

/-- Finalize of the primary-key builder, as generated by `derive_builder`
with `build_fn(validate = "Self::validate")`: the validator runs first,
then every unset field is filled from its declared default (the creation
timestamp defaults to "now" truncated to whole seconds, sampled at
finalize time and passed in here as `now`); the two fields without a
default (`key_type`, `primary_user_id`) must have been set. -/
def SecretKeyParamsBuilder.build (st : SecretKeyParamsBuilder) (now : Timestamp) :
    Except BuilderError SecretKeyParams :=
  match st.validate with
  | .error m => .error (.validationError m)
  | .ok () =>
    match st.key_type with
    | none => .error (.uninitializedField "key_type")
    | some key_type =>
      match st.primary_user_id with
      | none => .error (.uninitializedField "primary_user_id")
      | some primary_user_id =>
        .ok {
          key_type := key_type
          can_sign := st.can_sign.getD false
          can_certify := st.can_certify.getD false
          can_encrypt := st.can_encrypt.getD false
          preferred_symmetric_algorithms := st.preferred_symmetric_algorithms.getD []
          preferred_hash_algorithms := st.preferred_hash_algorithms.getD []
          preferred_compression_algorithms := st.preferred_compression_algorithms.getD []
          revocation_key := st.revocation_key.getD none
          primary_user_id := primary_user_id
          user_ids := st.user_ids.getD []
          user_attributes := st.user_attributes.getD []
          passphrase := st.passphrase.getD none
          s2k := st.s2k.getD none
          created_at := st.created_at.getD now.trunc_subsecs0
          packet_version := st.packet_version.getD Version.default
          version := st.version.getD KeyVersion.default
          expiration := st.expiration.getD none
          subkeys := st.subkeys.getD [] }

/-- Finalize of the subkey builder, as generated by `derive_builder`: the
derive on `SubkeyParams` carries no `build_fn(validate = ...)` attribute,
so no validator runs; only the required `key_type` is checked and every
other unset field is filled from its default. -/
def SubkeyParamsBuilder.build (st : SubkeyParamsBuilder) (now : Timestamp) :
    Except BuilderError SubkeyParams :=
  match st.key_type with
  | none => .error (.uninitializedField "key_type")
  | some key_type =>
    .ok {
      key_type := key_type
      can_sign := st.can_sign.getD false
      can_certify := st.can_certify.getD false
      can_encrypt := st.can_encrypt.getD false
      can_authenticate := st.can_authenticate.getD false
      user_ids := st.user_ids.getD []
      user_attributes := st.user_attributes.getD []
      passphrase := st.passphrase.getD none
      s2k := st.s2k.getD none
      created_at := st.created_at.getD now.trunc_subsecs0
      packet_version := st.packet_version.getD Version.default
      version := st.version.getD KeyVersion.default
      expiration := st.expiration.getD none }

/-- Appending a subkey to the builder, from the source
(`SecretKeyParamsBuilder::subkey`): pushes onto the accumulated list,
starting a fresh singleton list when the field was never set. -/
def SecretKeyParamsBuilder.subkey (st : SecretKeyParamsBuilder) (value : SubkeyParams) :
    SecretKeyParamsBuilder :=
  match st.subkeys with
  | some subkeys => { st with subkeys := some (subkeys ++ [value]) }
  | none => { st with subkeys := some [value] }

/-- Appending an additional identity string, from the source
(`SecretKeyParamsBuilder::user_id`). -/
def SecretKeyParamsBuilder.user_id (st : SecretKeyParamsBuilder) (value : String) :
    SecretKeyParamsBuilder :=
  match st.user_ids with
  | some user_ids => { st with user_ids := some (user_ids ++ [value]) }
  | none => { st with user_ids := some [value] }

/-- Validation error kinds as the spec names them in §4.1/§7. -/
inductive ValidationErrorKind
  | InvalidKeySize
  | InvalidUsage
  | UnsupportedCurve
deriving DecidableEq, Repr

/-- Written from the spec's §4.1 bullet list (refinement reference, not
from the source): the validation failure, if any, for a key type and the
declared can-sign / can-encrypt intents. -/
def specValidationFailure (kt : KeyType) (can_sign can_encrypt : Bool) :
    Option ValidationErrorKind :=
  match kt with
  | .Rsa bits => if bits < 2048 then some .InvalidKeySize else none
  | .EdDSALegacy => if can_encrypt then some .InvalidUsage else none
  | .ECDSA curve =>
      if can_encrypt then some .InvalidUsage
      else if curve = .P256 ∨ curve = .P384 ∨ curve = .P521 ∨ curve = .Secp256k1 then none
      else some .UnsupportedCurve
  | .ECDH _ => if can_sign then some .InvalidUsage else none
  | .Dsa _ => if can_encrypt then some .InvalidUsage else none

/-- The concrete message the source attaches to each validation failure
kind for each key type (the empty string on combinations the source never
produces). -/
def validationMessage (kt : KeyType) (k : ValidationErrorKind) : String :=
  match kt, k with
  | _, .InvalidKeySize => "Keys with less than 2048bits are considered insecure"
  | .EdDSALegacy, .InvalidUsage => "EdDSA can only be used for signing keys"
  | .ECDSA _, .InvalidUsage => "ECDSA can only be used for signing keys"
  | .ECDH _, .InvalidUsage => "ECDH can only be used for encryption keys"
  | .Dsa _, .InvalidUsage => "DSA can only be used for signing keys"
  | .ECDSA curve, .UnsupportedCurve => "Curve " ++ curve.name ++ " is not supported for ECDSA"
  | _, _ => ""

/-- Modelled from the spec: the public key parameters a generation
provider returns for each family (`types::PublicParams`); the `material`
component stands for the family-specific public numbers. -/
inductive PublicParams
  | rsa (bit_size : Nat) (material : Nat)
  | ecdh (curve : ECCCurve) (material : Nat)
  | eddsa (material : Nat)
  | ecdsa (curve : ECCCurve) (material : Nat)
  | dsa (key_size : DsaKeySize) (material : Nat)
deriving DecidableEq, Repr

/-- Modelled from the spec: the raw (plain) secret key material a
generation provider returns. -/
inductive PlainSecretParams
  | rsa (bit_size : Nat) (material : Nat)
  | ecdh (curve : ECCCurve) (material : Nat)
  | eddsa (material : Nat)
  | ecdsa (curve : ECCCurve) (material : Nat)
  | dsa (key_size : DsaKeySize) (material : Nat)
deriving DecidableEq, Repr

/-- Family-independent view of the raw material. -/
def PlainSecretParams.material : PlainSecretParams → Nat
  | .rsa _ m => m
  | .ecdh _ m => m
  | .eddsa m => m
  | .ecdsa _ m => m
  | .dsa _ m => m

/-- Modelled from the spec: passphrase-protected secret material (the
ciphertext together with the derivation configuration and the version tag
it is bound to). -/
structure EncryptedSecretParams where
  ciphertext : Nat
  s2k : S2kParams
  version : KeyVersion
deriving DecidableEq, Repr

/-- Modelled from the spec: secret material is either plain or
passphrase-protected (`types::SecretParams`). -/
inductive SecretParams
  | Plain (params : PlainSecretParams)
  | Encrypted (params : EncryptedSecretParams)
deriving DecidableEq, Repr

/-- Modelled from the spec (§6): the external collaborators the studied
file dispatches to — one key-generation provider per algorithm family
(each threading the randomness source it is given and free to fail),
and the key-derivation/encryption provider protecting raw material under
a passphrase.  The EdDSA provider is infallible, as in the source (its
call site carries no error propagation). -/
structure Env where
  rsa_generate_key : Rng → Nat → Except String ((PublicParams × PlainSecretParams) × Rng)
  ecdh_generate_key : Rng → ECCCurve → Except String ((PublicParams × PlainSecretParams) × Rng)
  eddsa_generate_key : Rng → (PublicParams × PlainSecretParams) × Rng
  ecdsa_generate_key : Rng → ECCCurve → Except String ((PublicParams × PlainSecretParams) × Rng)
  dsa_generate_key : Rng → DsaKeySize → Except String ((PublicParams × PlainSecretParams) × Rng)
  encrypt : PlainSecretParams → String → S2kParams → KeyVersion → Except String EncryptedSecretParams

/-- Provider dispatch, from the source (the first `match` of
`KeyType::generate_with_rng`): route the family-specific parameter to the
family's provider. -/
def KeyType.raw_generate (env : Env) (kt : KeyType) (rng : Rng) :
    Except String ((PublicParams × PlainSecretParams) × Rng) :=
  match kt with
  | .Rsa bit_size => env.rsa_generate_key rng bit_size
  | .ECDH curve => env.ecdh_generate_key rng curve
  | .EdDSALegacy => .ok (env.eddsa_generate_key rng)
  | .ECDSA curve => env.ecdsa_generate_key rng curve
  | .Dsa key_size => env.dsa_generate_key rng key_size

/-- Key material generation with protection, from the source
(`KeyType::generate_with_rng`): dispatch to the provider, then protect
the raw material exactly when a passphrase is present. -/
def KeyType.generate_with_rng (env : Env) (kt : KeyType) (rng : Rng)
    (passphrase : Option String) (s2k : S2kParams) :
    Except String ((PublicParams × SecretParams) × Rng) :=
  match kt.raw_generate env rng with
  | .error e => .error e
  | .ok ((pub_params, plain), rng) =>
    match passphrase with
    | some passphrase =>
        let version := KeyVersion.default
        match env.encrypt plain passphrase s2k version with
        | .error e => .error e
        | .ok enc => .ok ((pub_params, .Encrypted enc), rng)
    | none => .ok ((pub_params, .Plain plain), rng)

/-- Key material generation from the ambient source, from the source
(`KeyType::generate`): the source obtains a fresh handle to the
thread-local randomness source via `thread_rng()`; the model passes that
ambient source in explicitly as `thread_rng` and returns its advanced
state. -/
def KeyType.generate (env : Env) (kt : KeyType) (thread_rng : Rng)
    (passphrase : Option String) (s2k : S2kParams) :
    Except String ((PublicParams × SecretParams) × Rng) :=
  kt.generate_with_rng env thread_rng passphrase s2k

/-- Modelled from the spec: the capability flag set
(`packet::KeyFlags`), every flag cleared by default. -/
structure KeyFlags where
  certify : Bool := false
  sign : Bool := false
  encrypt_comms : Bool := false
  encrypt_storage : Bool := false
  authentication : Bool := false
deriving DecidableEq, Repr

/-- Default flag set (`KeyFlags::default()`): all cleared. -/
def KeyFlags.default : KeyFlags := {}

/-- Set or clear the certify flag. -/
def KeyFlags.set_certify (f : KeyFlags) (b : Bool) : KeyFlags := { f with certify := b }

/-- Set or clear the sign flag. -/
def KeyFlags.set_sign (f : KeyFlags) (b : Bool) : KeyFlags := { f with sign := b }

/-- Set or clear the encrypt-for-communications flag. -/
def KeyFlags.set_encrypt_comms (f : KeyFlags) (b : Bool) : KeyFlags :=
  { f with encrypt_comms := b }

/-- Set or clear the encrypt-for-storage flag. -/
def KeyFlags.set_encrypt_storage (f : KeyFlags) (b : Bool) : KeyFlags :=
  { f with encrypt_storage := b }

/-- Set or clear the authentication flag. -/
def KeyFlags.set_authentication (f : KeyFlags) (b : Bool) : KeyFlags :=
  { f with authentication := b }

namespace packet

/-- Modelled from the spec: the public envelope of a key
(`packet::PublicKey`) — format/version tags, algorithm tag, timestamp,
expiration (whole seconds, already narrowed to 16 bits by the caller),
and the public parameters. -/
structure PublicKey where
  packet_version : Version
  version : KeyVersion
  algorithm : PublicKeyAlgorithm
  created_at : Timestamp
  expiration : Option Nat
  public_params : PublicParams
deriving DecidableEq, Repr

/-- Envelope constructor (`packet::PublicKey::new`); fallible in the
source, modelled as storing its arguments unchanged. -/
def PublicKey.new (packet_version : Version) (version : KeyVersion)
    (algorithm : PublicKeyAlgorithm) (created_at : Timestamp)
    (expiration : Option Nat) (public_params : PublicParams) :
    Except String PublicKey :=
  .ok ⟨packet_version, version, algorithm, created_at, expiration, public_params⟩

/-- Public envelope of a subkey (`packet::PublicSubkey`), same shape as a
primary envelope. -/
abbrev PublicSubkey := PublicKey

/-- Subkey envelope constructor (`packet::PublicSubkey::new`). -/
def PublicSubkey.new (packet_version : Version) (version : KeyVersion)
    (algorithm : PublicKeyAlgorithm) (created_at : Timestamp)
    (expiration : Option Nat) (public_params : PublicParams) :
    Except String PublicSubkey :=
  PublicKey.new packet_version version algorithm created_at expiration public_params

/-- Modelled from the spec: a secret key packet (`packet::SecretKey`) —
the public envelope together with the (plain or protected) secret
material. -/
structure SecretKey where
  public_key : PublicKey
  secret_params : SecretParams
deriving DecidableEq, Repr

/-- Secret packet constructor (`packet::SecretKey::new`). -/
def SecretKey.new (public_key : PublicKey) (secret_params : SecretParams) : SecretKey :=
  ⟨public_key, secret_params⟩

/-- Secret subkey packet (`packet::SecretSubkey`), same shape. -/
abbrev SecretSubkey := SecretKey

/-- Secret subkey packet constructor (`packet::SecretSubkey::new`). -/
def SecretSubkey.new (public_key : PublicSubkey) (secret_params : SecretParams) :
    SecretSubkey :=
  SecretKey.new public_key secret_params

end packet

/-- Modelled from the spec: the identity block of the assembled key
(`composed::KeyDetails`). -/
structure KeyDetails where
  primary_user_id : UserId
  user_ids : List UserId
  user_attributes : List UserAttribute
  keyflags : KeyFlags
  preferred_symmetric_algorithms : List SymmetricKeyAlgorithm
  preferred_hash_algorithms : List HashAlgorithm
  preferred_compression_algorithms : List CompressionAlgorithm
  revocation_key : Option RevocationKey
deriving DecidableEq, Repr

/-- Identity block constructor (`KeyDetails::new`). -/
def KeyDetails.new (primary_user_id : UserId) (user_ids : List UserId)
    (user_attributes : List UserAttribute) (keyflags : KeyFlags)
    (preferred_symmetric_algorithms : List SymmetricKeyAlgorithm)
    (preferred_hash_algorithms : List HashAlgorithm)
    (preferred_compression_algorithms : List CompressionAlgorithm)
    (revocation_key : Option RevocationKey) : KeyDetails :=
  ⟨primary_user_id, user_ids, user_attributes, keyflags,
    preferred_symmetric_algorithms, preferred_hash_algorithms,
    preferred_compression_algorithms, revocation_key⟩

/-- Modelled from the spec: an assembled subkey record
(`composed::SecretSubkey`) — the secret subkey packet together with its
compiled capability flags. -/
structure SecretSubkey where
  key : packet.SecretSubkey
  keyflags : KeyFlags
deriving DecidableEq, Repr

/-- Assembled subkey constructor (`composed::SecretSubkey::new`). -/
def SecretSubkey.new (key : packet.SecretSubkey) (keyflags : KeyFlags) : SecretSubkey :=
  ⟨key, keyflags⟩

/-- Modelled from the spec: the assembled aggregate
(`composed::SecretKey`) — the primary secret packet, the identity block,
and the ordered subkey list (the public-subkey list starts empty,
`Default::default()` at the call site). -/
structure SecretKey where
  primary_key : packet.SecretKey
  details : KeyDetails
  public_subkeys : List Unit
  secret_subkeys : List SecretSubkey
deriving DecidableEq, Repr

/-- Aggregate constructor (`composed::SecretKey::new`). -/
def SecretKey.new (primary_key : packet.SecretKey) (details : KeyDetails)
    (public_subkeys : List Unit) (secret_subkeys : List SecretSubkey) : SecretKey :=
  ⟨primary_key, details, public_subkeys, secret_subkeys⟩

/-- Derivation-configuration resolution, from the source
(`self.s2k.unwrap_or_else(|| S2kParams::new_default(&mut rng))`): an
explicit configuration is kept, otherwise a default is synthesized from
the active randomness source (which only then advances). -/
def resolve_s2k (s2k : Option S2kParams) (rng : Rng) : S2kParams × Rng :=
  match s2k with
  | some v => (v, rng)
  | none => S2kParams.new_default rng

/-- Generation of one subkey, from the source (the closure inside
`SecretKeyParams::generate_with_rng`, lines 211–239): the derivation
configuration is resolved against the *shared* source `rng`, but the key
material itself is produced by `KeyType::generate`, which draws from the
ambient thread-local source `thread_rng`. -/
def generate_subkey (env : Env) (subkey : SubkeyParams) (rng thread_rng : Rng) :
    Except String (SecretSubkey × Rng × Rng) :=
  let passphrase := subkey.passphrase
  let (s2k, rng) := resolve_s2k subkey.s2k rng
  match subkey.key_type.generate env thread_rng passphrase s2k with
  | .error e => .error e
  | .ok ((public_params, secret_params), thread_rng) =>
    match packet.PublicSubkey.new subkey.packet_version subkey.version
        subkey.key_type.to_alg subkey.created_at
        (subkey.expiration.map (fun v => v.as_secs % 65536)) public_params with
    | .error e => .error e
    | .ok pub =>
      let keyflags :=
        ((((KeyFlags.default.set_certify subkey.can_certify).set_encrypt_comms
            subkey.can_encrypt).set_encrypt_storage
            subkey.can_encrypt).set_sign subkey.can_sign).set_authentication
            subkey.can_authenticate
      .ok (SecretSubkey.new (packet.SecretSubkey.new pub secret_params) keyflags,
           rng, thread_rng)

/-- Sequential generation of the declared subkeys in order, from the
source (`self.subkeys.into_iter().map(..).collect::<Result<Vec<_>>>()`):
stops at the first error, otherwise appends each result in declared
order, threading both randomness sources. -/
def generate_subkeys (env : Env) :
    List SubkeyParams → Rng → Rng → Except String (List SecretSubkey × Rng × Rng)
  | [], rng, thread_rng => .ok ([], rng, thread_rng)
  | subkey :: rest, rng, thread_rng =>
    match generate_subkey env subkey rng thread_rng with
    | .error e => .error e
    | .ok (out, rng, thread_rng) =>
      match generate_subkeys env rest rng thread_rng with
      | .error e => .error e
      | .ok (outs, rng, thread_rng) => .ok (out :: outs, rng, thread_rng)

/-- Primary-key phase of the factory, from the source
(`SecretKeyParams::generate_with_rng`, lines 171–185): resolve the
derivation configuration, generate and protect the primary material from
the shared source, and build the primary secret packet. -/
def SecretKeyParams.primary_step (env : Env) (p : SecretKeyParams) (rng : Rng) :
    Except String (packet.SecretKey × Rng) :=
  let passphrase := p.passphrase
  let (s2k, rng) := resolve_s2k p.s2k rng
  match p.key_type.generate_with_rng env rng passphrase s2k with
  | .error e => .error e
  | .ok ((public_params, secret_params), rng) =>
    match packet.PublicKey.new p.packet_version p.version p.key_type.to_alg
        p.created_at (p.expiration.map (fun v => v.as_secs % 65536)) public_params with
    | .error e => .error e
    | .ok pub => .ok (packet.SecretKey.new pub secret_params, rng)

/-- The composite key factory, from the source
(`SecretKeyParams::generate_with_rng`): primary phase, capability-flag
compilation, subkey phase in declared order, then assembly.  `rng` is the
caller-supplied source; `thread_rng` is the ambient thread-local source
that `KeyType::generate` draws from for subkey material. -/
def SecretKeyParams.generate_with_rng (env : Env) (p : SecretKeyParams)
    (rng thread_rng : Rng) : Except String SecretKey :=
  match p.primary_step env rng with
  | .error e => .error e
  | .ok (primary_key, rng) =>
    let keyflags :=
      (((KeyFlags.default.set_certify p.can_certify).set_encrypt_comms
          p.can_encrypt).set_encrypt_storage p.can_encrypt).set_sign p.can_sign
    match generate_subkeys env p.subkeys rng thread_rng with
    | .error e => .error e
    | .ok (subkeys, _, _) =>
      .ok (SecretKey.new primary_key
        (KeyDetails.new (UserId.from_str Version.default p.primary_user_id)
          (p.user_ids.map (fun m => UserId.from_str Version.default m))
          p.user_attributes keyflags p.preferred_symmetric_algorithms
          p.preferred_hash_algorithms p.preferred_compression_algorithms
          p.revocation_key)
        [] subkeys)

/-- Concrete instantiation of the external collaborators, used to
evaluate the factory on concrete inputs: each provider draws one value
from the source it is given and records it as the key material; the
encryption provider combines the material with the passphrase. -/
def Env.default : Env where
  rsa_generate_key := fun rng bit_size =>
    let (x, rng) := rng.next
    .ok ((.rsa bit_size x, PlainSecretParams.rsa bit_size x), rng)
  ecdh_generate_key := fun rng curve =>
    let (x, rng) := rng.next
    .ok ((.ecdh curve x, PlainSecretParams.ecdh curve x), rng)
  eddsa_generate_key := fun rng =>
    let (x, rng) := rng.next
    ((.eddsa x, PlainSecretParams.eddsa x), rng)
  ecdsa_generate_key := fun rng curve =>
    let (x, rng) := rng.next
    .ok ((.ecdsa curve x, PlainSecretParams.ecdsa curve x), rng)
  dsa_generate_key := fun rng key_size =>
    let (x, rng) := rng.next
    .ok ((.dsa key_size x, PlainSecretParams.dsa key_size x), rng)
  encrypt := fun plain passphrase s2k version =>
    .ok ⟨plain.material * 2 + passphrase.length + 1, s2k, version⟩

/-- Ok-projection of a build result. -/
def buildResult? : Except BuilderError SecretKeyParams → Option SecretKeyParams
  | .ok p => some p
  | .error _ => none

/-- Ok-projection of a subkey build result. -/
def subkeyBuildResult? : Except BuilderError SubkeyParams → Option SubkeyParams
  | .ok p => some p
  | .error _ => none

/-- Ok-projection of a generation result. -/
def generatedKey? : Except String SecretKey → Option SecretKey
  | .ok k => some k
  | .error _ => none

/-- Concrete subkey parameters used to evaluate the factory: an
encryption subkey over Curve25519 with an expiration of exactly 2^16
seconds. -/
def exampleSubkeyParams : SubkeyParams :=
  { key_type := .ECDH .Curve25519, can_sign := false, can_certify := false,
    can_encrypt := true, can_authenticate := true, user_ids := [],
    user_attributes := [], passphrase := none, s2k := some ⟨9⟩,
    created_at := ⟨200, 0⟩, packet_version := 0, version := 4,
    expiration := some ⟨65536, 0⟩ }

/-- Concrete primary parameters used to evaluate the factory: a signing
EdDSA primary with one declared subkey. -/
def exampleParams : SecretKeyParams :=
  { key_type := .EdDSALegacy, can_sign := true, can_certify := true,
    can_encrypt := false,
    preferred_symmetric_algorithms := [], preferred_hash_algorithms := [],
    preferred_compression_algorithms := [], revocation_key := none,
    primary_user_id := "Me", user_ids := [], user_attributes := [],
    passphrase := none, s2k := some ⟨7⟩, created_at := ⟨100, 0⟩,
    packet_version := 0, version := 4, expiration := some ⟨70000, 0⟩,
    subkeys := [exampleSubkeyParams] }

/-- Fallback aggregate used only to totalize the ok-projection below. -/
def fallbackKey : SecretKey :=
  SecretKey.new
    (packet.SecretKey.new ⟨0, 0, .RSA, ⟨0, 0⟩, none, .eddsa 0⟩ (.Plain (.eddsa 0)))
    (KeyDetails.new ⟨0, ""⟩ [] [] KeyFlags.default [] [] [] none) [] []

/-- The aggregate the factory produces on `exampleParams` with the
concrete environment and the seeds (7, 0) / (1, 0). -/
def exampleKey : SecretKey :=
  match SecretKeyParams.generate_with_rng Env.default exampleParams ⟨7, 0⟩ ⟨1, 0⟩ with
  | .ok k => k
  | .error _ => fallbackKey

/-- The validator agrees with the spec's §4.1 failure table: for a set
key type it fails exactly on the table's conditions, carrying the
table's message. -/
lemma validate_eq_specValidationFailure (st : SecretKeyParamsBuilder) (kt : KeyType)
    (hk : st.key_type = some kt) :
    st.validate =
      match specValidationFailure kt (st.can_sign.getD false) (st.can_encrypt.getD false) with
      | some k => .error (validationMessage kt k)
      | none => .ok () := by
  have hce : (st.can_encrypt = some true) ↔ (st.can_encrypt.getD false = true) := by
    rcases st.can_encrypt with _ | b
    · simp
    · cases b <;> simp
  have hcs : (st.can_sign = some true) ↔ (st.can_sign.getD false = true) := by
    rcases st.can_sign with _ | b
    · simp
    · cases b <;> simp
  cases kt with
  | Rsa bits =>
      by_cases h : bits < 2048 <;>
        simp [SecretKeyParamsBuilder.validate, specValidationFailure, validationMessage, hk, h]
  | EdDSALegacy =>
      by_cases h : st.can_encrypt.getD false = true
      · simp [SecretKeyParamsBuilder.validate, specValidationFailure, validationMessage, hk,
          hce.mpr h, h]
      · simp only [Bool.not_eq_true] at h
        simp [SecretKeyParamsBuilder.validate, specValidationFailure, validationMessage, hk,
          h, hce]
  | ECDSA curve =>
      by_cases h : st.can_encrypt.getD false = true
      · simp [SecretKeyParamsBuilder.validate, specValidationFailure, validationMessage, hk,
          hce.mpr h, h]
      · simp only [Bool.not_eq_true] at h
        cases curve <;>
          simp [SecretKeyParamsBuilder.validate, specValidationFailure, validationMessage,
            ECCCurve.name, hk, h, hce]
  | ECDH curve =>
      by_cases h : st.can_sign.getD false = true
      · simp [SecretKeyParamsBuilder.validate, specValidationFailure, validationMessage, hk,
          hcs.mpr h, h]
      · simp only [Bool.not_eq_true] at h
        simp [SecretKeyParamsBuilder.validate, specValidationFailure, validationMessage, hk,
          h, hcs]
  | Dsa size =>
      by_cases h : st.can_encrypt.getD false = true
      · simp [SecretKeyParamsBuilder.validate, specValidationFailure, validationMessage, hk,
          hce.mpr h, h]
      · simp only [Bool.not_eq_true] at h
        simp [SecretKeyParamsBuilder.validate, specValidationFailure, validationMessage, hk,
          h, hce]

/-- C2: with the required fields set, finalize of the primary-key builder
fails exactly on the spec's §4.1 conditions — Rsa below 2048 bits
(InvalidKeySize), EdDSALegacy/ECDSA/Dsa with can-encrypt intent
(InvalidUsage), ECDH with can-sign intent (InvalidUsage), ECDSA over a
curve outside {P-256, P-384, P-521, secp256k1} (UnsupportedCurve) — and
succeeds otherwise, each failure carrying the matching message. -/
theorem claim_c2_validation_exact (st : SecretKeyParamsBuilder) (now : Timestamp)
    (kt : KeyType) (u : String)
    (hk : st.key_type = some kt) (hu : st.primary_user_id = some u) :
    ((∃ e, st.build now = .error e) ↔
      specValidationFailure kt (st.can_sign.getD false) (st.can_encrypt.getD false) ≠ none)
    ∧ (∀ k, specValidationFailure kt (st.can_sign.getD false) (st.can_encrypt.getD false)
          = some k →
        st.build now = .error (.validationError (validationMessage kt k))) := by
  have hv := validate_eq_specValidationFailure st kt hk
  cases hspec : specValidationFailure kt (st.can_sign.getD false) (st.can_encrypt.getD false) with
  | none =>
      rw [hspec] at hv
      constructor
      · simp only [hspec, ne_eq, not_true_eq_false, iff_false, not_exists]
        intro e he
        simp [SecretKeyParamsBuilder.build, hv, hk, hu] at he
      · intro k hkey
        exact absurd hkey (by simp)
  | some k0 =>
      rw [hspec] at hv
      constructor
      · simp only [hspec, ne_eq, reduceCtorEq, not_false_eq_true, iff_true]
        refine ⟨.validationError (validationMessage kt k0), ?_⟩
        simp [SecretKeyParamsBuilder.build, hv]
      · intro k hkey
        cases hkey
        simp [SecretKeyParamsBuilder.build, hv]

/-- Witness for C2 at a concrete undersized-RSA builder. -/
def exampleBuilderRsa1024 : SecretKeyParamsBuilder :=
  { key_type := some (.Rsa 1024), primary_user_id := some "Me" }

/-- Witness for C2: the theorem applied to a concrete builder asking for
a 1024-bit RSA primary key. -/
theorem claim_c2_validation_exact_witness :
    ((∃ e, exampleBuilderRsa1024.build ⟨0, 0⟩ = .error e) ↔
      specValidationFailure (.Rsa 1024) (exampleBuilderRsa1024.can_sign.getD false)
        (exampleBuilderRsa1024.can_encrypt.getD false) ≠ none)
    ∧ (∀ k, specValidationFailure (.Rsa 1024) (exampleBuilderRsa1024.can_sign.getD false)
          (exampleBuilderRsa1024.can_encrypt.getD false) = some k →
        exampleBuilderRsa1024.build ⟨0, 0⟩ = .error (.validationError (validationMessage (.Rsa 1024) k))) :=
  claim_c2_validation_exact exampleBuilderRsa1024 ⟨0, 0⟩ (.Rsa 1024) "Me" rfl rfl

/-- C3: whenever key material generation succeeds, a present passphrase
(the empty string included) yields `Encrypted` secret material produced
by the protection provider from the raw material, and an absent
passphrase yields `Plain` secret material identical to the raw generated
material; there is no fallback in either direction. -/
theorem claim_c3_passphrase_protection (env : Env) (kt : KeyType) (rng : Rng)
    (passphrase : Option String) (s2k : S2kParams)
    (r : (PublicParams × SecretParams) × Rng)
    (h : kt.generate_with_rng env rng passphrase s2k = .ok r) :
    ∃ pub_params plain rng2,
      kt.raw_generate env rng = .ok ((pub_params, plain), rng2) ∧
      r.1.1 = pub_params ∧ r.2 = rng2 ∧
      (passphrase = none → r.1.2 = .Plain plain) ∧
      (∀ q, passphrase = some q →
        ∃ enc, env.encrypt plain q s2k KeyVersion.default = .ok enc ∧
          r.1.2 = .Encrypted enc) := by
  unfold KeyType.generate_with_rng at h
  cases hraw : kt.raw_generate env rng with
  | error e => rw [hraw] at h; exact Except.noConfusion h
  | ok v =>
    obtain ⟨⟨pub_params, plain⟩, rng2⟩ := v
    rw [hraw] at h
    refine ⟨pub_params, plain, rng2, rfl, ?_⟩
    cases passphrase with
    | none =>
        simp only at h
        cases h
        exact ⟨rfl, rfl, fun _ => rfl, fun q hq => Option.noConfusion hq⟩
    | some q =>
        simp only at h
        cases henc : env.encrypt plain q s2k KeyVersion.default with
        | error e => rw [henc] at h; exact Except.noConfusion h
        | ok enc =>
            rw [henc] at h
            cases h
            refine ⟨rfl, rfl, fun hq => Option.noConfusion hq, fun q2 hq => ?_⟩
            cases hq
            exact ⟨enc, henc, rfl⟩

/-- Witness for C3: the theorem applied to the concrete environment with
the empty-string passphrase (which is a present passphrase, so the result
is `Encrypted`). -/
theorem claim_c3_passphrase_protection_witness :
    ∃ pub_params plain rng2,
      KeyType.raw_generate Env.default .EdDSALegacy ⟨1, 0⟩ = .ok ((pub_params, plain), rng2) ∧
      ((PublicParams.eddsa 1000003, SecretParams.Encrypted ⟨2000007, ⟨0⟩, 4⟩),
          (⟨1, 1⟩ : Rng)).1.1 = pub_params ∧
      ((PublicParams.eddsa 1000003, SecretParams.Encrypted ⟨2000007, ⟨0⟩, 4⟩),
          (⟨1, 1⟩ : Rng)).2 = rng2 ∧
      ((some "" : Option String) = none →
        ((PublicParams.eddsa 1000003, SecretParams.Encrypted ⟨2000007, ⟨0⟩, 4⟩),
          (⟨1, 1⟩ : Rng)).1.2 = .Plain plain) ∧
      (∀ q, (some "" : Option String) = some q →
        ∃ enc, Env.default.encrypt plain q ⟨0⟩ KeyVersion.default = .ok enc ∧
          ((PublicParams.eddsa 1000003, SecretParams.Encrypted ⟨2000007, ⟨0⟩, 4⟩),
            (⟨1, 1⟩ : Rng)).1.2 = .Encrypted enc) :=
  claim_c3_passphrase_protection Env.default .EdDSALegacy ⟨1, 0⟩ (some "") ⟨0⟩
    ((PublicParams.eddsa 1000003, SecretParams.Encrypted ⟨2000007, ⟨0⟩, 4⟩), ⟨1, 1⟩)
    rfl

/-- Structural correspondence between a declared subkey parameter record
and an assembled subkey record: every envelope field and the compiled
capability flags are the ones derived from that parameter record. -/
def subkey_derived_from (sp : SubkeyParams) (out : SecretSubkey) : Prop :=
  out.key.public_key.algorithm = sp.key_type.to_alg ∧
  out.key.public_key.created_at = sp.created_at ∧
  out.key.public_key.packet_version = sp.packet_version ∧
  out.key.public_key.version = sp.version ∧
  out.key.public_key.expiration = sp.expiration.map (fun v => v.as_secs % 65536) ∧
  out.keyflags =
    { certify := sp.can_certify, sign := sp.can_sign, encrypt_comms := sp.can_encrypt,
      encrypt_storage := sp.can_encrypt, authentication := sp.can_authenticate }

/-- One successful subkey step produces a record derived from its
parameter record. -/
lemma generate_subkey_ok_derived (env : Env) (sp : SubkeyParams) (rng thread_rng : Rng)
    (out : SecretSubkey) (rng2 trng2 : Rng)
    (h : generate_subkey env sp rng thread_rng = .ok (out, rng2, trng2)) :
    subkey_derived_from sp out := by
  unfold generate_subkey at h
  rcases hr : resolve_s2k sp.s2k rng with ⟨s2k0, rngA⟩
  rw [hr] at h
  simp only at h
  cases hg : KeyType.generate env sp.key_type thread_rng sp.passphrase s2k0 with
  | error e =>
      rw [hg] at h
      exact Except.noConfusion h
  | ok v =>
      obtain ⟨⟨public_params, secret_params⟩, trng3⟩ := v
      rw [hg] at h
      simp only [packet.PublicSubkey.new, packet.PublicKey.new] at h
      cases h
      exact ⟨rfl, rfl, rfl, rfl, rfl, rfl⟩

/-- A successful subkey batch has one output per declared subkey, in
declared order, each derived from the parameter record at its own
position. -/
lemma generate_subkeys_ok_spec (env : Env) :
    ∀ (l : List SubkeyParams) (rng thread_rng : Rng) (outs : List SecretSubkey)
      (rng2 trng2 : Rng),
      generate_subkeys env l rng thread_rng = .ok (outs, rng2, trng2) →
      outs.length = l.length ∧
        ∀ i (hi : i < l.length) (ho : i < outs.length),
          subkey_derived_from (l.get ⟨i, hi⟩) (outs.get ⟨i, ho⟩)
  | [], rng, thread_rng, outs, rng2, trng2, h => by
      unfold generate_subkeys at h
      cases h
      exact ⟨rfl, fun i hi ho => absurd hi (by simp at hi)⟩
  | sp :: rest, rng, thread_rng, outs, rng2, trng2, h => by
      unfold generate_subkeys at h
      cases h1 : generate_subkey env sp rng thread_rng with
      | error e => rw [h1] at h; exact Except.noConfusion h
      | ok v =>
        obtain ⟨out, rngA, trngA⟩ := v
        rw [h1] at h
        simp only at h
        cases h2 : generate_subkeys env rest rngA trngA with
        | error e => rw [h2] at h; exact Except.noConfusion h
        | ok w =>
          obtain ⟨outs', rngB, trngB⟩ := w
          rw [h2] at h
          simp only at h
          cases h
          obtain ⟨hlen, hpt⟩ := generate_subkeys_ok_spec env rest rngA trngA outs' _ _ h2
          refine ⟨by simp [hlen], ?_⟩
          intro i hi ho
          cases i with
          | zero => exact generate_subkey_ok_derived env sp rng thread_rng out rngA trngA h1
          | succ j =>
              exact hpt j (by simpa using hi) (by simpa using ho)

/-- Inversion of a successful primary phase: the primary packet stores
the envelope built from the parameter record, the expiration narrowed to
16 bits. -/
lemma primary_step_ok_inv (env : Env) (p : SecretKeyParams) (rng : Rng)
    (pk : packet.SecretKey) (rng2 : Rng)
    (h : p.primary_step env rng = .ok (pk, rng2)) :
    ∃ public_params secret_params,
      pk = packet.SecretKey.new
        ⟨p.packet_version, p.version, p.key_type.to_alg, p.created_at,
          p.expiration.map (fun v => v.as_secs % 65536), public_params⟩
        secret_params := by
  unfold SecretKeyParams.primary_step at h
  rcases hr : resolve_s2k p.s2k rng with ⟨s2k0, rngA⟩
  rw [hr] at h
  simp only at h
  cases hg : KeyType.generate_with_rng env p.key_type rngA p.passphrase s2k0 with
  | error e => rw [hg] at h; exact Except.noConfusion h
  | ok v =>
    obtain ⟨⟨public_params, secret_params⟩, rng3⟩ := v
    rw [hg] at h
    simp only [packet.PublicKey.new] at h
    cases h
    exact ⟨public_params, secret_params, rfl⟩

/-- Inversion of a successful generate call: it decomposes into a
successful primary phase and a successful subkey batch, and the aggregate
is assembled exactly from their outputs. -/
lemma generate_with_rng_ok_inv (env : Env) (p : SecretKeyParams) (rng thread_rng : Rng)
    (k : SecretKey) (h : p.generate_with_rng env rng thread_rng = .ok k) :
    ∃ pk rng2 outs rng3 trng3,
      p.primary_step env rng = .ok (pk, rng2) ∧
      generate_subkeys env p.subkeys rng2 thread_rng = .ok (outs, rng3, trng3) ∧
      k = SecretKey.new pk
        (KeyDetails.new (UserId.from_str Version.default p.primary_user_id)
          (p.user_ids.map (fun m => UserId.from_str Version.default m))
          p.user_attributes
          ((((KeyFlags.default.set_certify p.can_certify).set_encrypt_comms
              p.can_encrypt).set_encrypt_storage p.can_encrypt).set_sign p.can_sign)
          p.preferred_symmetric_algorithms p.preferred_hash_algorithms
          p.preferred_compression_algorithms p.revocation_key)
        [] outs := by
  unfold SecretKeyParams.generate_with_rng at h
  cases hps : p.primary_step env rng with
  | error e => rw [hps] at h; exact Except.noConfusion h
  | ok v =>
    obtain ⟨pk, rng2⟩ := v
    rw [hps] at h
    simp only at h
    cases hsub : generate_subkeys env p.subkeys rng2 thread_rng with
    | error e => rw [hsub] at h; exact Except.noConfusion h
    | ok w =>
      obtain ⟨outs, rng3, trng3⟩ := w
      rw [hsub] at h
      simp only at h
      cases h
      exact ⟨pk, rng2, outs, rng3, trng3, rfl, hsub, rfl⟩

/-- C4: a successful generate returns as many assembled subkeys as were
declared, the record at each position derived from the parameter record
at the same position; and the builder's `subkey` setter appends to the
end of the declared list, so the declared list is builder insertion
order. -/
theorem claim_c4_subkey_order (env : Env) (p : SecretKeyParams) (rng thread_rng : Rng)
    (k : SecretKey) (h : p.generate_with_rng env rng thread_rng = .ok k) :
    k.secret_subkeys.length = p.subkeys.length ∧
    (∀ i (hi : i < p.subkeys.length) (ho : i < k.secret_subkeys.length),
      subkey_derived_from (p.subkeys.get ⟨i, hi⟩) (k.secret_subkeys.get ⟨i, ho⟩)) ∧
    (∀ (st : SecretKeyParamsBuilder) (v : SubkeyParams),
      (st.subkey v).subkeys = some (st.subkeys.getD [] ++ [v])) := by
  obtain ⟨pk, rng2, outs, rng3, trng3, hps, hsub, hk⟩ :=
    generate_with_rng_ok_inv env p rng thread_rng k h
  obtain ⟨hlen, hpt⟩ := generate_subkeys_ok_spec env p.subkeys rng2 thread_rng outs rng3 trng3 hsub
  subst hk
  refine ⟨hlen, hpt, ?_⟩
  intro st v
  cases hs : st.subkeys <;> simp [SecretKeyParamsBuilder.subkey, hs]

/-- Witness for C4: the theorem applied to the concrete factory run that
produces `exampleKey` from the one-subkey `exampleParams`. -/
theorem claim_c4_subkey_order_witness :
    exampleKey.secret_subkeys.length = exampleParams.subkeys.length ∧
    (∀ i (hi : i < exampleParams.subkeys.length)
        (ho : i < exampleKey.secret_subkeys.length),
      subkey_derived_from (exampleParams.subkeys.get ⟨i, hi⟩)
        (exampleKey.secret_subkeys.get ⟨i, ho⟩)) ∧
    (∀ (st : SecretKeyParamsBuilder) (v : SubkeyParams),
      (st.subkey v).subkeys = some (st.subkeys.getD [] ++ [v])) :=
  claim_c4_subkey_order Env.default exampleParams ⟨7, 0⟩ ⟨1, 0⟩ exampleKey rfl

/-- C5: on a successful generate the primary flag set is exactly the
declared intents (certify, sign, both encrypt flags from the one
can-encrypt intent, authenticate never set), and each assembled subkey's
flag set is exactly its own declared intents including authenticate. -/
theorem claim_c5_keyflags (env : Env) (p : SecretKeyParams) (rng thread_rng : Rng)
    (k : SecretKey) (h : p.generate_with_rng env rng thread_rng = .ok k) :
    k.details.keyflags =
      { certify := p.can_certify, sign := p.can_sign, encrypt_comms := p.can_encrypt,
        encrypt_storage := p.can_encrypt, authentication := false } ∧
    ∀ i (hi : i < p.subkeys.length) (ho : i < k.secret_subkeys.length),
      (k.secret_subkeys.get ⟨i, ho⟩).keyflags =
        { certify := (p.subkeys.get ⟨i, hi⟩).can_certify,
          sign := (p.subkeys.get ⟨i, hi⟩).can_sign,
          encrypt_comms := (p.subkeys.get ⟨i, hi⟩).can_encrypt,
          encrypt_storage := (p.subkeys.get ⟨i, hi⟩).can_encrypt,
          authentication := (p.subkeys.get ⟨i, hi⟩).can_authenticate } := by
  obtain ⟨pk, rng2, outs, rng3, trng3, hps, hsub, hk⟩ :=
    generate_with_rng_ok_inv env p rng thread_rng k h
  obtain ⟨hlen, hpt⟩ := generate_subkeys_ok_spec env p.subkeys rng2 thread_rng outs rng3 trng3 hsub
  subst hk
  exact ⟨rfl, fun i hi ho => (hpt i hi ho).2.2.2.2.2⟩

/-- Witness for C5: the theorem applied to the concrete factory run. -/
theorem claim_c5_keyflags_witness :
    exampleKey.details.keyflags =
      { certify := exampleParams.can_certify, sign := exampleParams.can_sign,
        encrypt_comms := exampleParams.can_encrypt,
        encrypt_storage := exampleParams.can_encrypt, authentication := false } ∧
    ∀ i (hi : i < exampleParams.subkeys.length)
        (ho : i < exampleKey.secret_subkeys.length),
      (exampleKey.secret_subkeys.get ⟨i, ho⟩).keyflags =
        { certify := (exampleParams.subkeys.get ⟨i, hi⟩).can_certify,
          sign := (exampleParams.subkeys.get ⟨i, hi⟩).can_sign,
          encrypt_comms := (exampleParams.subkeys.get ⟨i, hi⟩).can_encrypt,
          encrypt_storage := (exampleParams.subkeys.get ⟨i, hi⟩).can_encrypt,
          authentication := (exampleParams.subkeys.get ⟨i, hi⟩).can_authenticate } :=
  claim_c5_keyflags Env.default exampleParams ⟨7, 0⟩ ⟨1, 0⟩ exampleKey rfl

/-- C10: on a successful generate, the expiration stored in the primary
envelope and in each subkey envelope is the declared duration's
whole-second count reduced modulo 2^16 — any count of 65536 seconds or
more silently wraps. -/
theorem claim_c10_expiration_wrap (env : Env) (p : SecretKeyParams) (rng thread_rng : Rng)
    (k : SecretKey) (h : p.generate_with_rng env rng thread_rng = .ok k) :
    k.primary_key.public_key.expiration =
      p.expiration.map (fun v => v.as_secs % 65536) ∧
    ∀ i (hi : i < p.subkeys.length) (ho : i < k.secret_subkeys.length),
      (k.secret_subkeys.get ⟨i, ho⟩).key.public_key.expiration =
        (p.subkeys.get ⟨i, hi⟩).expiration.map (fun v => v.as_secs % 65536) := by
  obtain ⟨pk, rng2, outs, rng3, trng3, hps, hsub, hk⟩ :=
    generate_with_rng_ok_inv env p rng thread_rng k h
  obtain ⟨hlen, hpt⟩ := generate_subkeys_ok_spec env p.subkeys rng2 thread_rng outs rng3 trng3 hsub
  obtain ⟨public_params, secret_params, hpk⟩ := primary_step_ok_inv env p rng pk rng2 hps
  subst hk
  subst hpk
  exact ⟨rfl, fun i hi ho => (hpt i hi ho).2.2.2.2.1⟩

/-- Witness for C10: the theorem applied to the concrete factory run,
whose primary declares 70000 seconds (stored as 4464) and whose subkey
declares 65536 seconds (stored as 0). -/
theorem claim_c10_expiration_wrap_witness :
    (exampleKey.primary_key.public_key.expiration =
      exampleParams.expiration.map (fun v => v.as_secs % 65536) ∧
    ∀ i (hi : i < exampleParams.subkeys.length)
        (ho : i < exampleKey.secret_subkeys.length),
      (exampleKey.secret_subkeys.get ⟨i, ho⟩).key.public_key.expiration =
        (exampleParams.subkeys.get ⟨i, hi⟩).expiration.map (fun v => v.as_secs % 65536)) ∧
    exampleKey.primary_key.public_key.expiration = some 4464 ∧
    (exampleKey.secret_subkeys.get ⟨0, by decide⟩).key.public_key.expiration = some 0 :=
  ⟨claim_c10_expiration_wrap Env.default exampleParams ⟨7, 0⟩ ⟨1, 0⟩ exampleKey rfl,
    by decide, by decide⟩

/-- A subkey batch fails with `e` exactly when the declared list splits
into a prefix that succeeds and a first subkey whose own step fails with
`e` (everything after it untouched). -/
lemma generate_subkeys_error_iff (env : Env) (e : String) :
    ∀ (l : List SubkeyParams) (rng trng : Rng),
      generate_subkeys env l rng trng = .error e ↔
      ∃ pre sk post outs rng2 trng2,
        l = pre ++ sk :: post ∧
        generate_subkeys env pre rng trng = .ok (outs, rng2, trng2) ∧
        generate_subkey env sk rng2 trng2 = .error e
  | [], rng, trng => by
      constructor
      · intro h
        exact absurd h (by simp [generate_subkeys])
      · rintro ⟨pre, sk, post, outs, rng2, trng2, hl, -, -⟩
        exact absurd hl (by simp)
  | sp :: rest, rng, trng => by
      constructor
      · intro h
        unfold generate_subkeys at h
        cases h1 : generate_subkey env sp rng trng with
        | error e0 =>
            rw [h1] at h
            cases h
            exact ⟨[], sp, rest, [], rng, trng, rfl, rfl, h1⟩
        | ok v =>
            obtain ⟨out, rngA, trngA⟩ := v
            rw [h1] at h
            simp only at h
            cases h2 : generate_subkeys env rest rngA trngA with
            | error e0 =>
                rw [h2] at h
                cases h
                obtain ⟨pre, sk, post, outs, rng2, trng2, hl, hpre, hsk⟩ :=
                  (generate_subkeys_error_iff env e rest rngA trngA).mp h2
                refine ⟨sp :: pre, sk, post, out :: outs, rng2, trng2, by simp [hl], ?_, hsk⟩
                unfold generate_subkeys
                rw [h1]
                simp only
                rw [hpre]
            | ok w =>
                obtain ⟨outs, rngB, trngB⟩ := w
                rw [h2] at h
                exact Except.noConfusion h
      · rintro ⟨pre, sk, post, outs, rng2, trng2, hl, hpre, hsk⟩
        cases pre with
        | nil =>
            simp only [List.nil_append] at hl
            cases hl
            unfold generate_subkeys at hpre
            cases hpre
            unfold generate_subkeys
            rw [hsk]
        | cons sp2 pre2 =>
            simp only [List.cons_append] at hl
            injection hl with hsp hrest
            subst hsp
            unfold generate_subkeys at hpre ⊢
            cases h1 : generate_subkey env sp rng trng with
            | error e0 =>
                rw [h1] at hpre
                exact Except.noConfusion hpre
            | ok v =>
                obtain ⟨out, rngA, trngA⟩ := v
                rw [h1] at hpre
                simp only at hpre
                simp only
                cases h2 : generate_subkeys env pre2 rngA trngA with
                | error e0 =>
                    rw [h2] at hpre
                    exact Except.noConfusion hpre
                | ok w =>
                    obtain ⟨outs2, rngB, trngB⟩ := w
                    rw [h2] at hpre
                    simp only at hpre
                    cases hpre
                    have hrec : generate_subkeys env rest rngA trngA = .error e :=
                      (generate_subkeys_error_iff env e rest rngA trngA).mpr
                        ⟨pre2, sk, post, outs2, _, _, hrest, h2, hsk⟩
                    rw [hrec]

/-- C6: a generate call returns error `e` exactly when the primary phase
fails with `e`, or the primary phase succeeds and the subkey batch fails
with `e`; and the subkey batch fails with `e` exactly when some first
failing subkey step fails with `e` after a fully successful prefix — so
every step failure aborts the whole call with that very error and no
aggregate is returned. -/
theorem claim_c6_error_propagation (env : Env) (p : SecretKeyParams)
    (rng thread_rng : Rng) (e : String) :
    (p.generate_with_rng env rng thread_rng = .error e ↔
      p.primary_step env rng = .error e ∨
      ∃ pk rng2, p.primary_step env rng = .ok (pk, rng2) ∧
        generate_subkeys env p.subkeys rng2 thread_rng = .error e) ∧
    (∀ (l : List SubkeyParams) (rng0 trng0 : Rng),
      generate_subkeys env l rng0 trng0 = .error e ↔
      ∃ pre sk post outs rng2 trng2,
        l = pre ++ sk :: post ∧
        generate_subkeys env pre rng0 trng0 = .ok (outs, rng2, trng2) ∧
        generate_subkey env sk rng2 trng2 = .error e) := by
  constructor
  · constructor
    · intro h
      unfold SecretKeyParams.generate_with_rng at h
      cases hps : p.primary_step env rng with
      | error e0 =>
          rw [hps] at h
          cases h
          exact Or.inl rfl
      | ok v =>
          obtain ⟨pk0, rng20⟩ := v
          rw [hps] at h
          simp only at h
          cases hsub : generate_subkeys env p.subkeys rng20 thread_rng with
          | error e0 =>
              rw [hsub] at h
              cases h
              exact Or.inr ⟨pk0, rng20, rfl, hsub⟩
          | ok w =>
              obtain ⟨outs, rng3, trng3⟩ := w
              rw [hsub] at h
              exact Except.noConfusion h
    · rintro (hps | ⟨pk, rng2, hps, hsub⟩)
      · unfold SecretKeyParams.generate_with_rng
        rw [hps]
      · unfold SecretKeyParams.generate_with_rng
        rw [hps]
        dsimp only
        rw [hsub]
  · intro l rng0 trng0
    exact generate_subkeys_error_iff env e l rng0 trng0

/-- C1: evaluation at the failing input.  Two generate calls with
identical parameters and the identically-seeded caller rng (seed 7)
but differently-seeded ambient thread-local sources (seeds 1 and 2)
both succeed and agree on the primary key material, yet differ in the
subkey material: the subkey closure calls `KeyType::generate`, which
draws from `thread_rng()` instead of the shared caller rng, so subkey
key material is not reproduced by a seeded rng as the spec requires. -/
theorem claim_c1_subkey_thread_rng_divergence :
    (generatedKey?
        (SecretKeyParams.generate_with_rng Env.default exampleParams ⟨7, 0⟩ ⟨1, 0⟩)).map
        (fun k => k.primary_key) =
      (generatedKey?
          (SecretKeyParams.generate_with_rng Env.default exampleParams ⟨7, 0⟩ ⟨2, 0⟩)).map
        (fun k => k.primary_key) ∧
    generatedKey?
        (SecretKeyParams.generate_with_rng Env.default exampleParams ⟨7, 0⟩ ⟨1, 0⟩) ≠ none ∧
    generatedKey?
        (SecretKeyParams.generate_with_rng Env.default exampleParams ⟨7, 0⟩ ⟨2, 0⟩) ≠ none ∧
    (generatedKey?
        (SecretKeyParams.generate_with_rng Env.default exampleParams ⟨7, 0⟩ ⟨1, 0⟩)).map
        (fun k => k.secret_subkeys) ≠
      (generatedKey?
          (SecretKeyParams.generate_with_rng Env.default exampleParams ⟨7, 0⟩ ⟨2, 0⟩)).map
        (fun k => k.secret_subkeys) := by
  decide

/-- Concrete subkey builder asking for an ECDH key with can-sign intent,
an illegal combination under primary-key validation. -/
def exampleSubkeyBuilderEcdhSign : SubkeyParamsBuilder :=
  { key_type := some (.ECDH .Curve25519), can_sign := some true }

/-- C7 counterexample: building `SubkeyParams` with `ECDH(Curve25519)`
and can-sign = true succeeds — no capability validation runs on the
subkey builder, contrary to the claim that the build fails. -/
theorem claim_c7_counterexample :
    subkeyBuildResult? (exampleSubkeyBuilderEcdhSign.build ⟨0, 0⟩) ≠ none ∧
    (subkeyBuildResult? (exampleSubkeyBuilderEcdhSign.build ⟨0, 0⟩)).map
        (fun sp => (sp.key_type, sp.can_sign)) = some (.ECDH .Curve25519, true) := by
  decide

/-- C7 amended: the subkey builder applies no algorithm-capability
validation at all — whenever the required `key_type` field is set, the
build succeeds for every capability combination, carrying the declared
intents unchanged. -/
theorem claim_c7_amended_no_subkey_validation (st : SubkeyParamsBuilder) (now : Timestamp)
    (kt : KeyType) (hk : st.key_type = some kt) :
    ∃ sp, st.build now = .ok sp ∧ sp.key_type = kt ∧
      sp.can_sign = st.can_sign.getD false ∧
      sp.can_encrypt = st.can_encrypt.getD false := by
  unfold SubkeyParamsBuilder.build
  rw [hk]
  exact ⟨_, rfl, rfl, rfl, rfl⟩

/-- Witness for the amended C7: the theorem applied to the concrete
illegal combination. -/
theorem claim_c7_amended_witness :
    ∃ sp, exampleSubkeyBuilderEcdhSign.build ⟨0, 0⟩ = .ok sp ∧
      sp.key_type = .ECDH .Curve25519 ∧
      sp.can_sign = exampleSubkeyBuilderEcdhSign.can_sign.getD false ∧
      sp.can_encrypt = exampleSubkeyBuilderEcdhSign.can_encrypt.getD false :=
  claim_c7_amended_no_subkey_validation exampleSubkeyBuilderEcdhSign ⟨0, 0⟩
    (.ECDH .Curve25519) rfl

/-- Concrete primary builder that supplies an explicit creation timestamp
carrying a non-zero sub-second component. -/
def exampleBuilderSubsec : SecretKeyParamsBuilder :=
  { key_type := some .EdDSALegacy, primary_user_id := some "Me",
    created_at := some ⟨100, 5⟩, s2k := some (some ⟨7⟩) }

/-- C8 counterexample: an explicitly supplied creation timestamp is
stored unmodified, so its non-zero sub-second component (5 ns here)
persists in the built parameter record and is carried into the generated
primary envelope — contrary to the claim that the sub-second component
is always zero. -/
theorem claim_c8_counterexample :
    (buildResult? (exampleBuilderSubsec.build ⟨0, 0⟩)).map
        (fun p => p.created_at) = some ⟨100, 5⟩ ∧
    (5 : Nat) ≠ 0 ∧
    ((buildResult? (exampleBuilderSubsec.build ⟨0, 0⟩)).bind
        (fun p => generatedKey? (p.generate_with_rng Env.default ⟨3, 0⟩ ⟨4, 0⟩))).map
        (fun k => k.primary_key.public_key.created_at) = some ⟨100, 5⟩ := by
  decide

/-- C8 amended: a *defaulted* creation timestamp is "now" truncated to
whole seconds (zero sub-second component); an *explicitly supplied*
timestamp is stored unmodified, sub-seconds included; either way the
stored timestamp is carried into the generated primary envelope
unchanged.  This holds for primary and subkey parameter builds alike. -/
theorem claim_c8_amended_truncation (st : SecretKeyParamsBuilder)
    (sst : SubkeyParamsBuilder) (now : Timestamp)
    (p : SecretKeyParams) (sp : SubkeyParams)
    (hp : st.build now = .ok p) (hsp : sst.build now = .ok sp) :
    (st.created_at = none → p.created_at = now.trunc_subsecs0) ∧
    (∀ t, st.created_at = some t → p.created_at = t) ∧
    (sst.created_at = none → sp.created_at = now.trunc_subsecs0) ∧
    (∀ t, sst.created_at = some t → sp.created_at = t) ∧
    now.trunc_subsecs0.subsec_nanos = 0 ∧
    (∀ env rng trng k, p.generate_with_rng env rng trng = .ok k →
      k.primary_key.public_key.created_at = p.created_at) := by
  have hpc : p.created_at = st.created_at.getD now.trunc_subsecs0 := by
    unfold SecretKeyParamsBuilder.build at hp
    cases hv : st.validate with
    | error m => rw [hv] at hp; exact Except.noConfusion hp
    | ok u =>
      rw [hv] at hp
      cases hk : st.key_type with
      | none => rw [hk] at hp; exact Except.noConfusion hp
      | some kt =>
        rw [hk] at hp
        dsimp only at hp
        cases hu : st.primary_user_id with
        | none => rw [hu] at hp; exact Except.noConfusion hp
        | some u2 =>
          rw [hu] at hp
          dsimp only at hp
          cases hp
          rfl
  have hsc : sp.created_at = sst.created_at.getD now.trunc_subsecs0 := by
    unfold SubkeyParamsBuilder.build at hsp
    cases hk : sst.key_type with
    | none => rw [hk] at hsp; exact Except.noConfusion hsp
    | some kt =>
      rw [hk] at hsp
      dsimp only at hsp
      cases hsp
      rfl
  refine ⟨?_, ?_, ?_, ?_, rfl, ?_⟩
  · intro hnone
    rw [hpc, hnone]
    rfl
  · intro t ht
    rw [hpc, ht]
    rfl
  · intro hnone
    rw [hsc, hnone]
    rfl
  · intro t ht
    rw [hsc, ht]
    rfl
  · intro env rng trng k hk
    obtain ⟨pk, rng2, outs, rng3, trng3, hps, hsub, hkk⟩ :=
      generate_with_rng_ok_inv env p rng trng k hk
    obtain ⟨public_params, secret_params, hpk⟩ := primary_step_ok_inv env p rng pk rng2 hps
    subst hkk
    subst hpk
    rfl

/-- Concrete builders used by the C8 amended witness: one defaults the
timestamp, one supplies it explicitly with sub-seconds. -/
def exampleBuilderDefaulted : SecretKeyParamsBuilder :=
  { key_type := some .EdDSALegacy, primary_user_id := some "Me" }

/-- Subkey builder that defaults its creation timestamp. -/
def exampleSubkeyBuilderDefaulted : SubkeyParamsBuilder :=
  { key_type := some (.ECDH .Curve25519) }

/-- The parameter record the defaulted primary builder produces against
the clock reading (50 s, 7 ns). -/
def exampleBuilderDefaultedBuilt : SecretKeyParams :=
  match exampleBuilderDefaulted.build ⟨50, 7⟩ with
  | .ok p => p
  | .error _ => exampleParams

/-- The parameter record the defaulted subkey builder produces against
the clock reading (50 s, 7 ns). -/
def exampleSubkeyBuilderDefaultedBuilt : SubkeyParams :=
  match exampleSubkeyBuilderDefaulted.build ⟨50, 7⟩ with
  | .ok sp => sp
  | .error _ => exampleSubkeyParams

/-- Witness for the amended C8: the theorem applied to concrete builds
against the clock reading (50 s, 7 ns). -/
theorem claim_c8_amended_witness :
    (exampleBuilderDefaulted.created_at = none →
      exampleBuilderDefaultedBuilt.created_at = Timestamp.trunc_subsecs0 ⟨50, 7⟩) ∧
    (∀ t, exampleBuilderDefaulted.created_at = some t →
      exampleBuilderDefaultedBuilt.created_at = t) ∧
    (exampleSubkeyBuilderDefaulted.created_at = none →
      exampleSubkeyBuilderDefaultedBuilt.created_at = Timestamp.trunc_subsecs0 ⟨50, 7⟩) ∧
    (∀ t, exampleSubkeyBuilderDefaulted.created_at = some t →
      exampleSubkeyBuilderDefaultedBuilt.created_at = t) ∧
    (Timestamp.trunc_subsecs0 ⟨50, 7⟩).subsec_nanos = 0 ∧
    (∀ env rng trng k,
      exampleBuilderDefaultedBuilt.generate_with_rng env rng trng = .ok k →
      k.primary_key.public_key.created_at = exampleBuilderDefaultedBuilt.created_at) :=
  claim_c8_amended_truncation exampleBuilderDefaulted exampleSubkeyBuilderDefaulted
    ⟨50, 7⟩ exampleBuilderDefaultedBuilt exampleSubkeyBuilderDefaultedBuilt rfl rfl

/-- Concrete primary builder with the passphrase field never set. -/
def exampleBuilderNoPassphrase : SecretKeyParamsBuilder :=
  { key_type := some .EdDSALegacy, primary_user_id := some "Me" }

/-- C9 counterexample: finalize succeeds although the passphrase field
was never set — the field carries a `derive_builder` default, so absence
of a decision is a valid build resulting in "no passphrase". -/
theorem claim_c9_counterexample :
    exampleBuilderNoPassphrase.passphrase = none ∧
    buildResult? (exampleBuilderNoPassphrase.build ⟨0, 0⟩) ≠ none ∧
    (buildResult? (exampleBuilderNoPassphrase.build ⟨0, 0⟩)).map
        (fun p => p.passphrase) = some none := by
  decide

/-- C9 amended: the passphrase field is optional with default "no
passphrase": with the required fields set and the validator passing,
finalize succeeds even when the passphrase was never set, and the built
record carries no passphrase. -/
theorem claim_c9_amended_passphrase_default (st : SecretKeyParamsBuilder) (now : Timestamp)
    (kt : KeyType) (u : String)
    (hk : st.key_type = some kt) (hu : st.primary_user_id = some u)
    (hv : st.validate = .ok ()) (hp : st.passphrase = none) :
    ∃ p, st.build now = .ok p ∧ p.passphrase = none := by
  unfold SecretKeyParamsBuilder.build
  rw [hv, hk, hu]
  exact ⟨_, rfl, by simp [hp]⟩

/-- Witness for the amended C9: the theorem applied to the concrete
builder with no passphrase decision. -/
theorem claim_c9_amended_witness :
    ∃ p, exampleBuilderNoPassphrase.build ⟨0, 0⟩ = .ok p ∧ p.passphrase = none :=
  claim_c9_amended_passphrase_default exampleBuilderNoPassphrase ⟨0, 0⟩
    .EdDSALegacy "Me" rfl rfl rfl rfl

end Rpgp
